import Mathlib

/-!
Verification of the SingleStore HTTP adapter `singlestore/http.py`.

The Python module is shallowly embedded: the mutable `Cursor` and
`Connection` objects become Lean structures, in-place mutation becomes
explicit state passing, raised exceptions become an `Except`-style result,
and the HTTP transport becomes a function parameter from requests to
responses.  Every operation additionally returns the list of HTTP requests
it issued, so routing claims can be stated.
-/

set_option maxHeartbeats 1000000

namespace SinglestoreHttp

/-- JSON scalar values as they appear in result rows.  Floating point
numbers are not needed by any property and are not modelled. -/
inductive JVal where
  | null
  | bool (b : Bool)
  | num (n : Int)
  | str (s : String)
  deriving Repr, DecidableEq

/-- A result row: Python builds a tuple of converted values. -/
abbrev Row := List JVal

/-- Exceptions the embedded code can raise. -/
inductive PyErr where
  | interfaceError (code : Int) (msg : String)
  | notSupportedError (code : Int) (msg : String)
  | valueError
  | indexError
  | keyError (k : String)
  | jsonDecodeError
  deriving Repr, DecidableEq

/-- Characters Python treats as whitespace in `str.strip`, `str.split()`
and the regex class used by `execute` (ASCII range). -/
def pyIsSpace (c : Char) : Bool :=
  c = ' ' || c = '\t' || c = '\n' || c = '\r' || c = '\x0b' || c = '\x0c'

/-- Python `str.strip()` on a character list: drop whitespace at both ends. -/
def pyStripList (l : List Char) : List Char :=
  ((l.dropWhile pyIsSpace).reverse.dropWhile pyIsSpace).reverse

/-- Python `str.strip()`. -/
def pyStrip (s : String) : String :=
  String.mk (pyStripList s.data)

/-- Python `str.split()` (no argument): split on runs of whitespace,
discarding empty pieces.  The accumulator holds the current token reversed. -/
def pySplitWsAux : List Char → List Char → List (List Char)
  | [], acc => if acc.isEmpty then [] else [acc.reverse]
  | c :: cs, acc =>
    if pyIsSpace c then
      if acc.isEmpty then pySplitWsAux cs []
      else acc.reverse :: pySplitWsAux cs []
    else pySplitWsAux cs (c :: acc)

/-- Python `str.split()` with no argument. -/
def pySplitWs (l : List Char) : List (List Char) :=
  pySplitWsAux l []

/-- Python `s.split(sep, 1)` when `sep` occurs: the part before the first
occurrence and the part after it; `none` when `sep` does not occur
(which is also the test `sep in s`). -/
def pySplitOnce (sep : Char) : List Char → Option (List Char × List Char)
  | [] => none
  | c :: cs =>
    if c = sep then some ([], cs)
    else
      match pySplitOnce sep cs with
      | some (a, b) => some (c :: a, b)
      | none => none

/-- Python `s.split(sep)` (split on every occurrence, keeping empties). -/
def pySplitAll (sep : Char) : List Char → List (List Char)
  | [] => [[]]
  | c :: cs =>
    if c = sep then [] :: pySplitAll sep cs
    else
      match pySplitAll sep cs with
      | h :: t => (c :: h) :: t
      | [] => [[c]]

/-- Python `sep.join(parts)`. -/
def pyJoin (sep : String) : List String → String
  | [] => ""
  | [x] => x
  | x :: y :: ys => x ++ sep ++ pyJoin sep (y :: ys)

/-- Digits of a token as a number; `none` unless the token is one or more
decimal digits. -/
def digitsToNat (l : List Char) : Option Nat :=
  if l.isEmpty then none
  else if l.all Char.isDigit then
    some (l.foldl (fun a c => a * 10 + (c.toNat - 48)) 0)
  else none

/-- Python `int(s)`: optional surrounding whitespace, optional sign, then
decimal digits.  Digit-grouping underscores are not modelled (no token fed
to `int` in this module can contain one). -/
def pyInt (s : String) : Option Int :=
  match pyStripList s.data with
  | '-' :: ds => (digitsToNat ds).map (fun n => -(n : Int))
  | '+' :: ds => (digitsToNat ds).map (fun n => (n : Int))
  | ds => (digitsToNat ds).map (fun n => (n : Int))

/-- Truthiness of Python `Optional[str]`: `None` and `""` are falsy. -/
def pyTruthyStr : Option String → Bool
  | none => false
  | some s => !s.isEmpty

/-- Case-insensitive match of a (lower-case) pattern against the front of
the subject, as the literal part of the regex does under `re.I`; on success
returns the rest of the subject. -/
def ciMatch : List Char → List Char → Option (List Char)
  | [], rest => some rest
  | _ :: _, [] => none
  | p :: ps, c :: cs => if c.toLower = p then ciMatch ps cs else none

/-- Matches the regex fragment `kw\s+` at the front of the subject
(case-insensitively, `kw` given in lower case). -/
def kwMatch (kw : List Char) (l : List Char) : Bool :=
  match ciMatch kw l with
  | some (c :: _) => pyIsSpace c
  | _ => false

/-- Semantics of `re.match(r'^\s*(select|show)\s+', query, flags=re.I)` in
`Cursor.execute`: leading whitespace is stripped maximally (both keywords
start with a non-space character, so regex backtracking cannot do
otherwise), then one keyword followed by a whitespace character must match. -/
def isQuerySql (q : String) : Bool :=
  let rest := q.data.dropWhile pyIsSpace
  kwMatch "select".data rest || kwMatch "show".data rest

/-- Statement classification used by `Cursor.execute`. -/
inductive SqlType where
  | query
  | exec
  deriving Repr, DecidableEq

/-- Parameters to a statement: Python accepts a sequence or a mapping. -/
inductive Args where
  | seq (vals : List JVal)
  | map (kvs : List (String × JVal))
  deriving Repr, DecidableEq

/-- The JSON request body built by `Cursor.execute`: `sql` always, `args`
when params were given, `database` when the connection has a truthy one. -/
structure ReqData where
  sql : String
  args : Option Args
  database : Option String
  deriving Repr, DecidableEq

/-- One column of a query response (`results[0].columns[i]`). -/
structure ColumnInfo where
  name : String
  dataType : Nat
  nullable : Option Bool
  deriving Repr, DecidableEq

/-- One result set of a query response.  Either field may be missing from
the JSON: `columns` is read with a `[]` default, a missing `rows` raises. -/
structure ResultSet where
  columns : Option (List ColumnInfo) := none
  rows : Option (List (List JVal)) := none
  deriving Repr, DecidableEq

/-- The parsed JSON body of a response.  `execute` reads `results` after a
query statement and `rowsAffected` after any other; a missing key raises. -/
structure Payload where
  results : Option (List ResultSet) := none
  rowsAffected : Option Int := none
  deriving Repr, DecidableEq

/-- The response contract `execute` relies on: status code, raw text body,
and the parsed JSON (`none` when the body does not decode). -/
structure HttpResponse where
  status : Nat
  text : String
  json : Option Payload := none
  deriving Repr, DecidableEq

/-- The transport for `execute`: maps a POST path (resolved against the
base URL by the HTTP library) and JSON body to a response. -/
abbrev Net := String → ReqData → HttpResponse

/-- The external collaborators of the adapter:
`types.ColumnType.get_name` resolving a type code to a type name, and the
`converters` registry keyed by type name. -/
structure Externals where
  getName : Nat → String
  converters : String → JVal → JVal

/-- The 9-field DB-API column descriptor tuple built by `execute`:
`(name, type_code, display_size, internal_size, precision, scale,
null_ok, column_flags, ?)`. -/
structure Descriptor where
  name : String
  typeName : String
  displaySize : Option Int
  internalSize : Option Int
  precision : Option Int
  scale : Option Int
  nullOk : Bool
  columnFlags : Int
  extra : Int
  deriving Repr, DecidableEq

/-- The `requests.Session` state the adapter relies on: the Basic-auth
credentials (the JSON content-type and accept headers are set uniformly
in the constructor and never consulted again, so they are not modelled). -/
structure Session where
  auth : Option (String × String) := none
  deriving Repr, DecidableEq

/-- The `Connection` object: session handle (absent once closed), default
database, base URL and autocommit flag. -/
structure Connection where
  sess : Option Session
  database : Option String
  url : String
  autocommit : Bool
  deriving Repr, DecidableEq

/-- The `Cursor` object.  `connection` is the back-reference, absent once
the cursor is closed; `rows` is the `_rows` FIFO buffer. -/
structure Cursor where
  connection : Option Connection
  rows : List Row
  description : Option (List Descriptor)
  arraysize : Int
  rowcount : Int
  deriving Repr, DecidableEq

/-- The `connect` factory / `Connection.__init__`: defaults applied by
Python truthiness (`host or 'localhost'`, `port or 3306`), auth from
user and password, base URL `protocol://host:port/api/version/`. -/
def connect (host : Option String := none) (port : Option Int := none)
    (user : Option String := none) (password : Option String := none)
    (database : Option String := none)
    (protocol : String := "http") (version : String := "v1") : Connection :=
  let host := match host with
    | some h => if h = "" then "localhost" else h
    | none => "localhost"
  let port : Int := match port with
    | some p => if p = 0 then 3306 else p
    | none => 3306
  let auth : Option (String × String) :=
    match user, password with
    | some u, some p => some (u, p)
    | some u, none => some (u, "")
    | none, _ => none
  { sess := some { auth := auth }
    database := database
    url := protocol ++ "://" ++ host ++ ":" ++ toString port ++ "/api/" ++ version ++ "/"
    autocommit := true }

/-- `Connection.cursor()`: a fresh cursor bound to this connection, with
the initial field values of `Cursor.__init__`. -/
def Connection.cursor (c : Connection) : Cursor :=
  { connection := some c
    rows := []
    description := none
    arraysize := 1000
    rowcount := 0 }

/-- `Connection.close()`: discards the session. -/
def Connection.close (c : Connection) : Connection :=
  { c with sess := none }

/-- `Connection.commit()`: a no-op under autocommit, otherwise an
unsupported-operation error.  The session is never consulted. -/
def Connection.commit (c : Connection) : Except PyErr Unit :=
  if c.autocommit then .ok ()
  else .error (.notSupportedError 0 "operation not supported")

/-- `Connection.rollback()`: same shape as `commit`. -/
def Connection.rollback (c : Connection) : Except PyErr Unit :=
  if c.autocommit then .ok ()
  else .error (.notSupportedError 0 "operation not supported")

/-- `Cursor.close()`: drops the connection reference (only when present;
the observable effect is the same either way). -/
def Cursor.close (cur : Cursor) : Cursor :=
  if cur.connection.isSome then { cur with connection := none } else cur

/-- `Cursor.fetchone()`: pops the earliest buffered row; on an empty
buffer clears `description` and returns the `None` sentinel. -/
def Cursor.fetchone (cur : Cursor) : Option Row × Cursor :=
  match cur.rows with
  | r :: rest => (some r, { cur with rows := rest })
  | [] => (none, { cur with description := none })

/-- The `while size > 0` loop body of `Cursor.fetchmany`, recursing on the
row buffer (whose length is what makes the loop terminate: `size` itself is
never changed inside the loop).  Each iteration first re-checks the loop
condition, then inlines `fetchone`: a popped row is appended to the output,
the `None` sentinel clears `description` and breaks.  The list argument is
always the current buffer `cur.rows`. -/
def fetchmanyLoop (size : Int) : List Row → Cursor → List Row × Cursor
  | [], cur =>
    if 0 < size then ([], { cur with description := none }) else ([], cur)
  | r :: rest, cur =>
    if 0 < size then
      let (out, cur') := fetchmanyLoop size rest { cur with rows := rest }
      (r :: out, cur')
    else ([], cur)

/-- `Cursor.fetchmany(size)`: Python first replaces a missing, zero or
negative `size` (the test `not size or int(size) <= 0`) by `arraysize`,
then runs the fetch loop. -/
def Cursor.fetchmany (cur : Cursor) (size : Option Int) : List Row × Cursor :=
  let sz : Int := match size with
    | none => cur.arraysize
    | some n => if n ≤ 0 then cur.arraysize else n
  fetchmanyLoop sz cur.rows cur

/-- The `while True` loop of `Cursor.fetchall`, recursing on the row
buffer; the list argument is always the current buffer `cur.rows`. -/
def fetchallLoop : List Row → Cursor → List Row × Cursor
  | [], cur => ([], { cur with description := none })
  | r :: rest, cur =>
    let (out, cur') := fetchallLoop rest { cur with rows := rest }
    (r :: out, cur')

/-- `Cursor.fetchall()`: drains the buffer via repeated `fetchone`. -/
def Cursor.fetchall (cur : Cursor) : List Row × Cursor :=
  fetchallLoop cur.rows cur

/-- The error raised by `Cursor.execute` for an HTTP status of 400 or
more.  Nonempty body with a colon: the final whitespace-delimited token
before the first colon becomes the integer code (an unparseable token is a
`ValueError` from `int`, an all-whitespace part a `IndexError` from
`[-1]`), the stripped remainder the message.  Nonempty body without a
colon: the status and the stripped body.  Empty body: the status and
`"HTTP Error"`. -/
def httpFailure (status : Nat) (text : String) : PyErr :=
  if text ≠ "" then
    match pySplitOnce ':' text.data with
    | some (before, after) =>
      match (pySplitWs before).getLast? with
      | some tok =>
        match pyInt (String.mk tok) with
        | some icode => .interfaceError icode (pyStrip (String.mk after))
        | none => .valueError
      | none => .indexError
    | none => .interfaceError (status : Int) (pyStrip text)
  else .interfaceError (status : Int) "HTTP Error"

/-- The result of `Cursor.execute`: outcome, post-state of the cursor, and
the POST requests issued (path and JSON body). -/
structure ExecOut where
  result : Except PyErr Unit
  cur : Cursor
  requests : List (String × ReqData)
  deriving Repr

/-- `Cursor.execute(query, params)`.  Checks the cursor is bound, builds
the body, classifies the statement, POSTs through the connection (which
checks its session), translates an error status via `httpFailure`, and on
success resets description/buffer/rowcount before repopulating them from
the payload.  In the query branch the descriptors are assigned before
`rows` is read, as in the source, so a payload with columns but no `rows`
key leaves the new descriptors in place. -/
def Cursor.execute (cur : Cursor) (q : String) (params : Option Args)
    (ext : Externals) (net : Net) : ExecOut :=
  match cur.connection with
  | none => ⟨.error (.interfaceError 0 "connection is closed"), cur, []⟩
  | some conn =>
    let data : ReqData :=
      { sql := q
        args := params
        database := if pyTruthyStr conn.database then conn.database else none }
    let sqlType : SqlType := if isQuerySql q then .query else .exec
    let path := match sqlType with
      | .query => "query/tuples"
      | .exec => "exec"
    match conn.sess with
    | none => ⟨.error (.interfaceError 0 "connection is closed"), cur, []⟩
    | some _ =>
      let res := net path data
      if 400 ≤ res.status then
        ⟨.error (httpFailure res.status res.text), cur, [(path, data)]⟩
      else
        match res.json with
        | none => ⟨.error .jsonDecodeError, cur, [(path, data)]⟩
        | some out =>
          let cur1 := { cur with description := none, rows := [], rowcount := 0 }
          match sqlType with
          | .query =>
            match out.results with
            | none => ⟨.error (.keyError "results"), cur1, [(path, data)]⟩
            | some results =>
              match results.head? with
              | none => ⟨.error .indexError, cur1, [(path, data)]⟩
              | some first =>
                let cols := first.columns.getD []
                let convs := cols.map fun item => ext.converters (ext.getName item.dataType)
                let descr := cols.map fun item =>
                  Descriptor.mk item.name (ext.getName item.dataType)
                    none none none none (item.nullable.getD false) 0 0
                let cur2 := { cur1 with description := some descr }
                match first.rows with
                | none => ⟨.error (.keyError "rows"), cur2, [(path, data)]⟩
                | some rws =>
                  let rows := rws.map fun row => List.zipWith (fun f v => f v) convs row
                  ⟨.ok (), { cur2 with rows := rows, rowcount := (rows.length : Int) },
                    [(path, data)]⟩
          | .exec =>
            match out.rowsAffected with
            | none => ⟨.error (.keyError "rowsAffected"), cur1, [(path, data)]⟩
            | some n => ⟨.ok (), { cur1 with rowcount := n }, [(path, data)]⟩

/-- Truthiness of the `param_seq` argument of `executemany`: `None` and an
empty sequence are falsy. -/
def pyTruthySeq : Option (List Args) → Bool
  | none => false
  | some l => !l.isEmpty

/-- The `for params in param_seq` loop of `executemany`: one `execute` per
parameter set, an exception stopping the loop. -/
def executemanyLoop (q : String) (ext : Externals) (net : Net) :
    List Args → Cursor → ExecOut
  | [], cur => ⟨.ok (), cur, []⟩
  | p :: rest, cur =>
    let o := Cursor.execute cur q (some p) ext net
    match o.result with
    | .error e => ⟨.error e, o.cur, o.requests⟩
    | .ok _ =>
      let o2 := executemanyLoop q ext net rest o.cur
      ⟨o2.result, o2.cur, o.requests ++ o2.requests⟩

/-- `Cursor.executemany(query, param_seq)`: with a truthy sequence, one
`execute` per parameter set; otherwise a single `execute(query)`. -/
def Cursor.executemany (cur : Cursor) (q : String)
    (paramSeq : Option (List Args)) (ext : Externals) (net : Net) : ExecOut :=
  if pyTruthySeq paramSeq then executemanyLoop q ext net (paramSeq.getD []) cur
  else Cursor.execute cur q none ext net

/-- A GET request as issued through the session: URL plus the Basic-auth
credentials the session applies to every request it sends. -/
structure GetReq where
  url : String
  auth : Option (String × String)
  deriving Repr, DecidableEq

/-- The transport for session GET requests. -/
abbrev GetNet := GetReq → HttpResponse

/-- The ping URL computed by `Connection.is_connected`:
`'/'.join(self._url.split('/')[:3]) + '/ping'`, i.e. the base URL cut
back to `scheme://host:port`. -/
def pingUrl (url : String) : String :=
  pyJoin "/" (((pySplitAll '/' url.data).take 3).map String.mk) ++ "/ping"

/-- `Connection.is_connected()`: false on a disposed session; otherwise a
GET through the session (so carrying its auth) to the ping URL, true
exactly when the status is at most 400 and the body is `"pong"`.  Also
returns the GET requests issued. -/
def Connection.is_connected (c : Connection) (net : GetNet) : Bool × List GetReq :=
  match c.sess with
  | none => (false, [])
  | some s =>
    let req : GetReq := { url := pingUrl c.url, auth := s.auth }
    let res := net req
    if res.status ≤ 400 && res.text == "pong" then (true, [req])
    else (false, [req])

/-- `Connection.ping(reconnect)`: raises code 2006 when `is_connected` is
false; the `reconnect` argument is never read. -/
def Connection.ping (c : Connection) (_reconnect : Bool) (net : GetNet) :
    Except PyErr Unit × List GetReq :=
  let (ok, reqs) := Connection.is_connected c net
  if ok then (.ok (), reqs)
  else (.error (.interfaceError 2006 "Could not connect to SingleStore database"), reqs)

/-- `Cursor.is_connected()`: false when unbound, else the connection's. -/
def Cursor.is_connected (cur : Cursor) (net : GetNet) : Bool × List GetReq :=
  match cur.connection with
  | none => (false, [])
  | some conn => Connection.is_connected conn net

/-- Repeated `fetchone` calls, collecting each return value in order:
the observation needed to state the exhaustion property. -/
def iterFetch : Nat → Cursor → List (Option Row) × Cursor
  | 0, cur => ([], cur)
  | n + 1, cur =>
    let (r, cur') := Cursor.fetchone cur
    let (rs, cur'') := iterFetch n cur'
    (r :: rs, cur'')

/-! ### Lemmas about the fetch loops -/

theorem fetchallLoop_cons (r : Row) (rest : List Row) (cur : Cursor) :
    fetchallLoop (r :: rest) cur =
      (r :: (fetchallLoop rest { cur with rows := rest }).1,
        (fetchallLoop rest { cur with rows := rest }).2) := rfl

theorem fetchallLoop_spec :
    ∀ (l : List Row) (cur : Cursor), cur.rows = l →
      fetchallLoop l cur = (l, { cur with rows := [], description := none }) := by
  intro l
  induction l with
  | nil =>
    intro cur h
    cases cur
    simp_all [fetchallLoop]
  | cons r rest ih =>
    intro cur h
    rw [fetchallLoop_cons, ih { cur with rows := rest } rfl]

theorem fetchall_spec (cur : Cursor) :
    Cursor.fetchall cur = (cur.rows, { cur with rows := [], description := none }) :=
  fetchallLoop_spec cur.rows cur rfl

theorem fetchmanyLoop_cons (size : Int) (hsz : 0 < size) (r : Row)
    (rest : List Row) (cur : Cursor) :
    fetchmanyLoop size (r :: rest) cur =
      (r :: (fetchmanyLoop size rest { cur with rows := rest }).1,
        (fetchmanyLoop size rest { cur with rows := rest }).2) := by
  simp only [fetchmanyLoop, if_pos hsz]

theorem fetchmanyLoop_pos_spec (size : Int) (hsz : 0 < size) :
    ∀ (l : List Row) (cur : Cursor), cur.rows = l →
      fetchmanyLoop size l cur = (l, { cur with rows := [], description := none }) := by
  intro l
  induction l with
  | nil =>
    intro cur h
    cases cur
    simp_all [fetchmanyLoop]
  | cons r rest ih =>
    intro cur h
    rw [fetchmanyLoop_cons size hsz, ih { cur with rows := rest } rfl]

theorem iterFetch_succ (n : Nat) (cur : Cursor) :
    iterFetch (n + 1) cur =
      ((Cursor.fetchone cur).1 :: (iterFetch n (Cursor.fetchone cur).2).1,
        (iterFetch n (Cursor.fetchone cur).2).2) := rfl

theorem iterFetch_spec :
    ∀ (l : List Row) (cur : Cursor), cur.rows = l →
      iterFetch (l.length + 1) cur =
        (l.map some ++ [none], { cur with rows := [], description := none }) := by
  intro l
  induction l with
  | nil =>
    intro cur h
    cases cur
    simp_all [iterFetch, Cursor.fetchone]
  | cons r rest ih =>
    intro cur h
    have hf : Cursor.fetchone cur = (some r, { cur with rows := rest }) := by
      simp [Cursor.fetchone, h]
    rw [List.length_cons, iterFetch_succ, hf]
    rw [show ((some r, { cur with rows := rest }) : Option Row × Cursor).2
          = { cur with rows := rest } from rfl,
        show ((some r, { cur with rows := rest }) : Option Row × Cursor).1
          = some r from rfl,
        ih { cur with rows := rest } rfl]
    simp

/-! ### Lemmas characterising `Cursor.execute` -/

/-- The request body `execute` builds for a given connection. -/
def builtData (conn : Connection) (q : String) (params : Option Args) : ReqData :=
  { sql := q
    args := params
    database := if pyTruthyStr conn.database then conn.database else none }

/-- The POST path `execute` chooses for a given statement. -/
def builtPath (q : String) : String :=
  if isQuerySql q then "query/tuples" else "exec"

theorem execute_error_state (cur : Cursor) (conn : Connection) (s : Session)
    (q : String) (params : Option Args) (ext : Externals) (net : Net)
    (status : Nat) (text : String) (j : Option Payload)
    (hc : cur.connection = some conn) (hs : conn.sess = some s)
    (hnet : ∀ p d, net p d = ⟨status, text, j⟩) (hst : 400 ≤ status) :
    Cursor.execute cur q params ext net =
      ⟨.error (httpFailure status text), cur, [(builtPath q, builtData conn q params)]⟩ := by
  by_cases hq : isQuerySql q <;>
    simp [Cursor.execute, hc, hs, hnet, hst, hq, builtPath, builtData]

theorem execute_requests (cur : Cursor) (conn : Connection) (s : Session)
    (q : String) (params : Option Args) (ext : Externals) (net : Net)
    (hc : cur.connection = some conn) (hs : conn.sess = some s) :
    (Cursor.execute cur q params ext net).requests =
      [(builtPath q, builtData conn q params)] := by
  by_cases hq : isQuerySql q <;>
    simp only [Cursor.execute, hc, hs, hq, builtPath, builtData, if_true, if_false,
      Bool.false_eq_true, reduceIte] <;>
    (repeat' split) <;> rfl

/-- The descriptor row `execute` builds for one column. -/
def builtDescriptor (ext : Externals) (item : ColumnInfo) : Descriptor :=
  { name := item.name
    typeName := ext.getName item.dataType
    displaySize := none
    internalSize := none
    precision := none
    scale := none
    nullOk := item.nullable.getD false
    columnFlags := 0
    extra := 0 }

/-- The converted rows `execute` stores for a query response. -/
def convertedRows (ext : Externals) (cols : List ColumnInfo)
    (rws : List (List JVal)) : List Row :=
  rws.map fun row =>
    List.zipWith (fun f v => f v)
      (cols.map fun item => ext.converters (ext.getName item.dataType)) row

theorem execute_query_success (cur : Cursor) (conn : Connection) (s : Session)
    (q : String) (params : Option Args) (ext : Externals) (net : Net)
    (status : Nat) (text : String) (out : Payload)
    (first : ResultSet) (restRS : List ResultSet) (rws : List (List JVal))
    (hc : cur.connection = some conn) (hs : conn.sess = some s)
    (hnet : ∀ p d, net p d = ⟨status, text, some out⟩) (hst : status < 400)
    (hq : isQuerySql q = true)
    (hres : out.results = some (first :: restRS)) (hrows : first.rows = some rws) :
    Cursor.execute cur q params ext net =
      ⟨.ok (),
        { cur with
            description := some ((first.columns.getD []).map (builtDescriptor ext))
            rows := convertedRows ext (first.columns.getD []) rws
            rowcount := ((convertedRows ext (first.columns.getD []) rws).length : Int) },
        [("query/tuples", builtData conn q params)]⟩ := by
  simp [Cursor.execute, hc, hs, hnet, hq, hres, hrows, builtData, builtDescriptor,
    convertedRows, show ¬ (400 ≤ status) from by omega]

theorem execute_exec_success (cur : Cursor) (conn : Connection) (s : Session)
    (q : String) (params : Option Args) (ext : Externals) (net : Net)
    (status : Nat) (text : String) (out : Payload) (n : Int)
    (hc : cur.connection = some conn) (hs : conn.sess = some s)
    (hnet : ∀ p d, net p d = ⟨status, text, some out⟩) (hst : status < 400)
    (hq : isQuerySql q = false) (haff : out.rowsAffected = some n) :
    Cursor.execute cur q params ext net =
      ⟨.ok (),
        { cur with description := none, rows := [], rowcount := n },
        [("exec", builtData conn q params)]⟩ := by
  simp [Cursor.execute, hc, hs, hnet, hq, haff, builtData,
    show ¬ (400 ≤ status) from by omega]

/-! ### Lemmas characterising `httpFailure` -/

theorem httpFailure_empty (status : Nat) :
    httpFailure status "" = .interfaceError (status : Int) "HTTP Error" := rfl

theorem httpFailure_no_colon (status : Nat) (text : String)
    (h1 : pySplitOnce ':' text.data = none) (h2 : text ≠ "") :
    httpFailure status text = .interfaceError (status : Int) (pyStrip text) := by
  simp [httpFailure, h1, h2]

theorem httpFailure_colon (status : Nat) (text : String)
    (before after tok : List Char) (icode : Int)
    (hsp : pySplitOnce ':' text.data = some (before, after))
    (hlast : (pySplitWs before).getLast? = some tok)
    (hint : pyInt (String.mk tok) = some icode) :
    httpFailure status text = .interfaceError icode (pyStrip (String.mk after)) := by
  have hne : text ≠ "" := by
    intro h
    rw [h] at hsp
    simp [pySplitOnce] at hsp
  simp [httpFailure, hne, hsp, hlast, hint]

/-! ### The classification predicate, as the claim words it -/

/-- The claim side of the classification refinement: after stripping
leading whitespace the statement begins with `select` or `show`
(case-insensitively) followed by a whitespace character. -/
def SpecQueryType (q : String) : Prop :=
  ∃ (w kw : List Char) (c : Char) (rest : List Char),
    q.data = w ++ kw ++ c :: rest ∧
    (∀ x ∈ w, pyIsSpace x = true) ∧
    (kw.map Char.toLower = "select".data ∨ kw.map Char.toLower = "show".data) ∧
    pyIsSpace c = true

theorem ciMatch_eq_some {p : List Char} :
    ∀ {l r : List Char}, ciMatch p l = some r →
      ∃ pre, l = pre ++ r ∧ pre.map Char.toLower = p := by
  induction p with
  | nil =>
    intro l r h
    simp [ciMatch] at h
    exact ⟨[], by simp [h]⟩
  | cons a ps ih =>
    intro l r h
    cases l with
    | nil => simp [ciMatch] at h
    | cons c cs =>
      simp only [ciMatch] at h
      by_cases hca : c.toLower = a
      · rw [if_pos hca] at h
        obtain ⟨pre, hpre, hmap⟩ := ih h
        exact ⟨c :: pre, by simp [hpre], by simp [hmap, hca]⟩
      · rw [if_neg hca] at h
        exact absurd h (by simp)

theorem ciMatch_append {pre : List Char} :
    ∀ (r : List Char), ciMatch (pre.map Char.toLower) (pre ++ r) = some r := by
  induction pre with
  | nil => intro r; rfl
  | cons c cs ih => intro r; simp [ciMatch, ih]

theorem kwMatch_iff (kw l : List Char) :
    kwMatch kw l = true ↔
      ∃ pre c rest, l = pre ++ c :: rest ∧ pre.map Char.toLower = kw ∧
        pyIsSpace c = true := by
  constructor
  · intro h
    unfold kwMatch at h
    rcases hm : ciMatch kw l with _ | r
    · rw [hm] at h; simp at h
    · rw [hm] at h
      cases r with
      | nil => simp at h
      | cons c rest =>
        obtain ⟨pre, hpre, hmap⟩ := ciMatch_eq_some hm
        exact ⟨pre, c, rest, hpre, hmap, h⟩
  · rintro ⟨pre, c, rest, rfl, rfl, hsp⟩
    unfold kwMatch
    rw [ciMatch_append]
    exact hsp

theorem toLower_eq_self_of_space {x : Char} (h : pyIsSpace x = true) :
    x.toLower = x := by
  simp only [pyIsSpace, Bool.or_eq_true, decide_eq_true_eq] at h
  rcases h with ((((rfl | rfl) | rfl) | rfl) | rfl) | rfl <;> decide

theorem not_space_of_head_keyword {x : Char}
    (h : x.toLower = 's' ∨ x.toLower = 'S') : pyIsSpace x = false := by
  by_contra hx
  have hx' : pyIsSpace x = true := by
    cases hpy : pyIsSpace x
    · exact absurd hpy hx
    · rfl
  have := toLower_eq_self_of_space hx'
  rcases h with h | h <;> rw [this] at h <;> subst h <;> simp [pyIsSpace] at hx'

theorem dropWhile_space_append {w : List Char} (k : Char) (t : List Char)
    (hw : ∀ x ∈ w, pyIsSpace x = true) (hk : pyIsSpace k = false) :
    (w ++ k :: t).dropWhile pyIsSpace = k :: t := by
  induction w with
  | nil => simp [List.dropWhile_cons, hk]
  | cons a w ih =>
    have ha : pyIsSpace a = true := hw a (by simp)
    simp only [List.cons_append, List.dropWhile_cons, ha, if_true]
    exact ih (fun x hx => hw x (by simp [hx]))

theorem isQuerySql_iff (q : String) : isQuerySql q = true ↔ SpecQueryType q := by
  unfold isQuerySql
  constructor
  · intro h
    simp only [Bool.or_eq_true] at h
    have hsplit := (List.takeWhile_append_dropWhile (p := pyIsSpace) (l := q.data)).symm
    rcases h with h | h
    · obtain ⟨pre, c, rest, hcr, hmap, hsp⟩ := (kwMatch_iff _ _).mp h
      rw [hcr] at hsplit
      refine ⟨q.data.takeWhile pyIsSpace, pre, c, rest, ?_, ?_, Or.inl hmap, hsp⟩
      · exact hsplit.trans (List.append_assoc _ _ _).symm
      · intro x hx; exact List.mem_takeWhile_imp hx
    · obtain ⟨pre, c, rest, hcr, hmap, hsp⟩ := (kwMatch_iff _ _).mp h
      rw [hcr] at hsplit
      refine ⟨q.data.takeWhile pyIsSpace, pre, c, rest, ?_, ?_, Or.inr hmap, hsp⟩
      · exact hsplit.trans (List.append_assoc _ _ _).symm
      · intro x hx; exact List.mem_takeWhile_imp hx
  · rintro ⟨w, kw, c, rest, hdec, hw, hkw, hsp⟩
    have hkw' : kw ≠ [] := by
      rcases hkw with h | h <;> intro hnil <;> subst hnil <;> simp at h
    obtain ⟨k0, kw', rfl⟩ := List.exists_cons_of_ne_nil hkw'
    have hk0 : pyIsSpace k0 = false := by
      apply not_space_of_head_keyword
      rcases hkw with h | h <;> simp only [List.map_cons] at h <;>
        exact Or.inl (List.head_eq_of_cons_eq h)
    have hdrop : q.data.dropWhile pyIsSpace = k0 :: (kw' ++ c :: rest) := by
      rw [hdec, List.append_assoc, List.cons_append,
        dropWhile_space_append k0 (kw' ++ c :: rest) hw hk0]
    rw [hdrop]
    simp only [Bool.or_eq_true]
    rcases hkw with h | h
    · exact Or.inl ((kwMatch_iff _ _).mpr ⟨k0 :: kw', c, rest, by simp, h, hsp⟩)
    · exact Or.inr ((kwMatch_iff _ _).mpr ⟨k0 :: kw', c, rest, by simp, h, hsp⟩)

/-! ### Lemmas about the ping URL computation -/

theorem string_data_append (a b : String) : (a ++ b).data = a.data ++ b.data := rfl

theorem string_eq_of_data {a b : String} (h : a.data = b.data) : a = b := by
  cases a; cases b; exact congrArg String.mk h

theorem pySplitAll_cons_sep (sep : Char) (r : List Char) :
    pySplitAll sep (sep :: r) = [] :: pySplitAll sep r := by
  simp [pySplitAll]

theorem pySplitAll_no_sep_append {sep : Char} {l : List Char}
    (h : sep ∉ l) (r : List Char) :
    pySplitAll sep (l ++ sep :: r) = l :: pySplitAll sep r := by
  induction l with
  | nil => simp [pySplitAll]
  | cons c cs ih =>
    have hc : ¬ (c = sep) := by rintro rfl; exact h (by simp)
    have hcs : sep ∉ cs := fun hm => h (by simp [hm])
    simp only [List.cons_append, pySplitAll, if_neg hc, List.append_eq, ih hcs]

theorem pingSegments (schemeL hpL tail : List Char)
    (h1 : ('/' : Char) ∉ schemeL) (h2 : ('/' : Char) ∉ hpL) :
    pySplitAll '/' (schemeL ++ ':' :: '/' :: '/' :: (hpL ++ '/' :: tail))
      = (schemeL ++ [':']) :: [] :: hpL :: pySplitAll '/' tail := by
  have e : schemeL ++ ':' :: '/' :: '/' :: (hpL ++ '/' :: tail)
      = (schemeL ++ [':']) ++ '/' :: ('/' :: (hpL ++ '/' :: tail)) := by simp
  have hns : ('/' : Char) ∉ schemeL ++ [':'] := by
    simp only [List.mem_append, List.mem_singleton]
    rintro (hm | hm)
    · exact h1 hm
    · exact absurd hm (by decide)
  rw [e, pySplitAll_no_sep_append hns, pySplitAll_cons_sep,
    pySplitAll_no_sep_append h2]

theorem pingUrl_strips_api_path (scheme hp ver : String)
    (h1 : ('/' : Char) ∉ scheme.data) (h2 : ('/' : Char) ∉ hp.data) :
    pingUrl (scheme ++ "://" ++ hp ++ "/api/" ++ ver ++ "/") =
      scheme ++ "://" ++ hp ++ "/ping" := by
  have d1 : ("://" : String).data = [':', '/', '/'] := rfl
  have d2 : ("/api/" : String).data = ['/', 'a', 'p', 'i', '/'] := rfl
  have d3 : ("/" : String).data = ['/'] := rfl
  have d4 : ("/ping" : String).data = ['/', 'p', 'i', 'n', 'g'] := rfl
  apply string_eq_of_data
  unfold pingUrl
  have harg : (scheme ++ "://" ++ hp ++ "/api/" ++ ver ++ "/").data
      = scheme.data ++ ':' :: '/' :: '/' ::
          (hp.data ++ '/' :: ('a' :: 'p' :: 'i' :: '/' :: (ver.data ++ ['/']))) := by
    simp [string_data_append, d1, d2, d3]
  rw [harg, pingSegments scheme.data hp.data _ h1 h2]
  simp [pyJoin, string_data_append, d1, d3, d4, String.mk]

/-! ### Concrete fixtures for witnesses and counterexamples -/

/-- A trivial type resolver and converter registry, standing in for the
external collaborators in concrete instances. -/
def extId : Externals := { getName := fun _ => "int", converters := fun _ v => v }

/-- A transport answering every POST with an empty success response. -/
def netEmpty : Net := fun _ _ => { status := 200, text := "", json := none }

/-- A GET transport always answering `pong`. -/
def getNetPong : GetNet := fun _ => { status := 200, text := "pong", json := none }

/-- An open cursor holding three buffered rows. -/
def sizedCursor : Cursor :=
  { connection := some connect
    rows := [[.num 1], [.num 2], [.num 3]]
    description := some []
    arraysize := 1000
    rowcount := 3 }

/-- A closed cursor (connection reference dropped) still holding a row. -/
def closedBufferedCursor : Cursor :=
  { connection := none
    rows := [[.num 7]]
    description := some []
    arraysize := 1000
    rowcount := 1 }

/-- A connection whose session has been disposed by `close()`. -/
def closedConnection : Connection := Connection.close connect

/-! ### The claims -/

/-- C1 (code bug): on a buffer of three rows, `fetchmany(1)` returns all
three remaining rows instead of `min(1, 3) = 1`.  The loop
`while size > 0` in the source never decrements `size`, so any positive
resolved size drains the whole buffer; the method docstring
("Fetch `size` rows from the result") and the DB-API contract both say
`size` rows. -/
theorem fetchmany_ignores_requested_size :
    (Cursor.fetchmany sizedCursor (some 1)).1 =
      [[JVal.num 1], [JVal.num 2], [JVal.num 3]] ∧
    (Cursor.fetchmany sizedCursor (some 1)).1.length = 3 := ⟨rfl, rfl⟩

/-- C2 (counterexample): after `close()`, `fetchone` and `fetchall` on a
cursor still succeed against the local buffer, and `commit()` on a closed
connection returns normally under the default autocommit — none of them
fails with a connection-closed error as the claim asserts. -/
theorem closed_cursor_fetch_and_commit_succeed :
    (Cursor.fetchone closedBufferedCursor).1 = some [JVal.num 7] ∧
    (Cursor.fetchall closedBufferedCursor).1 = [[JVal.num 7]] ∧
    Connection.commit closedConnection = Except.ok () := ⟨rfl, rfl, rfl⟩

/-- C2 (amended): after `close()` on a cursor or on its connection, a
subsequent `execute` fails with the connection-closed error and changes
nothing; but the fetch methods keep draining the local buffer without
checking the connection, and `commit` depends only on the autocommit flag,
so neither fails on a closed resource. -/
theorem closed_resource_execute_fails (cur : Cursor) (conn conn2 : Connection)
    (q : String) (params : Option Args) (ext : Externals) (net : Net) :
    (cur.connection = none →
      Cursor.execute cur q params ext net =
        ⟨.error (.interfaceError 0 "connection is closed"), cur, []⟩) ∧
    (cur.connection = some conn → conn.sess = none →
      Cursor.execute cur q params ext net =
        ⟨.error (.interfaceError 0 "connection is closed"), cur, []⟩) ∧
    ((Cursor.fetchone cur).1 = cur.rows.head?) ∧
    (conn2.sess = none → conn2.autocommit = true →
      Connection.commit conn2 = .ok ()) := by
  refine ⟨?_, ?_, ?_, ?_⟩
  · intro h; simp [Cursor.execute, h]
  · intro h hs
    by_cases hq : isQuerySql q <;> simp [Cursor.execute, h, hs, hq]
  · cases hr : cur.rows <;> simp [Cursor.fetchone, hr]
  · intro _ ha; simp [Connection.commit, ha]

/-- C2 (witness): the amended statement at concrete closed resources. -/
theorem closed_resource_execute_fails_witness :
    Cursor.execute closedBufferedCursor "SELECT 1" none extId netEmpty =
      ⟨.error (.interfaceError 0 "connection is closed"), closedBufferedCursor, []⟩ ∧
    Cursor.execute (Connection.cursor closedConnection) "SELECT 1" none extId netEmpty =
      ⟨.error (.interfaceError 0 "connection is closed"),
        Connection.cursor closedConnection, []⟩ ∧
    Connection.commit closedConnection = .ok () :=
  ⟨(closed_resource_execute_fails closedBufferedCursor connect connect
      "SELECT 1" none extId netEmpty).1 rfl,
   (closed_resource_execute_fails (Connection.cursor closedConnection)
      closedConnection connect "SELECT 1" none extId netEmpty).2.1 rfl rfl,
   (closed_resource_execute_fails closedBufferedCursor connect closedConnection
      "SELECT 1" none extId netEmpty).2.2.2 rfl rfl⟩

/-- C9: `Cursor.close` only drops the connection reference: buffer,
description, rowcount and arraysize are untouched (and, the state being
passed functionally, nothing else — in particular not the connection value
itself); it is total (never raises) and idempotent. -/
theorem cursor_close_frame (cur : Cursor) :
    (Cursor.close cur).connection = none ∧
    (Cursor.close cur).rows = cur.rows ∧
    (Cursor.close cur).description = cur.description ∧
    (Cursor.close cur).arraysize = cur.arraysize ∧
    (Cursor.close cur).rowcount = cur.rowcount ∧
    Cursor.close (Cursor.close cur) = Cursor.close cur := by
  cases hc : cur.connection <;> simp [Cursor.close, hc]

/-- C10: `executemany` with an empty parameter sequence takes the falsy
branch of `if param_seq:` exactly like an omitted sequence, performing a
single parameterless `execute`. -/
theorem executemany_empty_seq_single_execute (cur : Cursor) (q : String)
    (ext : Externals) (net : Net) :
    Cursor.executemany cur q (some []) ext net =
      Cursor.executemany cur q none ext net ∧
    Cursor.executemany cur q none ext net =
      Cursor.execute cur q none ext net := ⟨rfl, rfl⟩

/-- A transport answering with a failure body that has surrounding
whitespace and no colon. -/
def netStripBody : Net := fun _ _ => { status := 500, text := " oops ", json := none }

/-- C3 (counterexample): a 500 response with the colon-free body
`" oops "` raises code 500 with message `"oops"` — the source applies
`.strip()` in the no-colon branch as well, so the message is the trimmed
body, not the full body as the claim states. -/
theorem http_error_message_is_stripped :
    (Cursor.execute (Connection.cursor connect) "CREATE TABLE t (x INT)"
        none extId netStripBody).result
      = .error (.interfaceError 500 "oops") ∧
    (" oops " : String) ≠ "oops" := ⟨rfl, by decide⟩

/-- C3 (amended): for an HTTP status of at least 400, `execute` raises an
interface error whose code and message are derived from the body: empty
body gives the status and the literal `"HTTP Error"`; a body without a
colon gives the status and the whitespace-trimmed body; a body with a
colon gives, when the final whitespace-delimited token before the first
colon parses as an integer, that integer and the trimmed remainder after
the colon. -/
theorem execute_http_error_derivation (cur : Cursor) (conn : Connection)
    (s : Session) (q : String) (params : Option Args) (ext : Externals)
    (net : Net) (status : Nat) (text : String) (j : Option Payload)
    (hc : cur.connection = some conn) (hs : conn.sess = some s)
    (hnet : ∀ p d, net p d = ⟨status, text, j⟩) (hst : 400 ≤ status) :
    (text = "" →
      (Cursor.execute cur q params ext net).result =
        .error (.interfaceError (status : Int) "HTTP Error")) ∧
    (pySplitOnce ':' text.data = none → text ≠ "" →
      (Cursor.execute cur q params ext net).result =
        .error (.interfaceError (status : Int) (pyStrip text))) ∧
    (∀ before after tok icode,
      pySplitOnce ':' text.data = some (before, after) →
      (pySplitWs before).getLast? = some tok →
      pyInt (String.mk tok) = some icode →
      (Cursor.execute cur q params ext net).result =
        .error (.interfaceError icode (pyStrip (String.mk after)))) := by
  have he := execute_error_state cur conn s q params ext net status text j hc hs hnet hst
  refine ⟨?_, ?_, ?_⟩
  · rintro rfl
    rw [he, httpFailure_empty]
  · intro h1 h2
    rw [he]
    rw [show (⟨.error (httpFailure status text), cur,
        [(builtPath q, builtData conn q params)]⟩ : ExecOut).result
      = .error (httpFailure status text) from rfl]
    rw [httpFailure_no_colon status text h1 h2]
  · intro before after tok icode hsp hlast hint
    rw [he]
    rw [show (⟨.error (httpFailure status text), cur,
        [(builtPath q, builtData conn q params)]⟩ : ExecOut).result
      = .error (httpFailure status text) from rfl]
    rw [httpFailure_colon status text before after tok icode hsp hlast hint]

/-- A transport answering with an empty 500 body. -/
def netNoBody : Net := fun _ _ => { status := 500, text := "", json := none }

/-- A transport answering 404 with a colon-free body. -/
def netNoColon : Net := fun _ _ => { status := 404, text := "no colon here", json := none }

/-- A transport answering 400 with a `code: message` body. -/
def netColonBody : Net :=
  fun _ _ => { status := 400, text := "1146: Table x missing", json := none }

/-- C3 (witness): the three branches of the derivation at concrete
responses. -/
theorem execute_http_error_derivation_witness :
    (Cursor.execute (Connection.cursor connect) "DROP TABLE t"
        none extId netNoBody).result
      = .error (.interfaceError 500 "HTTP Error") ∧
    (Cursor.execute (Connection.cursor connect) "DROP TABLE t"
        none extId netNoColon).result
      = .error (.interfaceError 404 "no colon here") ∧
    (Cursor.execute (Connection.cursor connect) "DROP TABLE t"
        none extId netColonBody).result
      = .error (.interfaceError 1146 "Table x missing") := by
  refine ⟨?_, ?_, ?_⟩
  · exact (execute_http_error_derivation (Connection.cursor connect) connect
      ⟨none⟩ "DROP TABLE t" none extId netNoBody 500 "" none rfl rfl
      (fun _ _ => rfl) (by decide)).1 rfl
  · exact (execute_http_error_derivation (Connection.cursor connect) connect
      ⟨none⟩ "DROP TABLE t" none extId netNoColon 404 "no colon here" none rfl rfl
      (fun _ _ => rfl) (by decide)).2.1 rfl (by decide)
  · exact (execute_http_error_derivation (Connection.cursor connect) connect
      ⟨none⟩ "DROP TABLE t" none extId netColonBody 400 "1146: Table x missing" none
      rfl rfl (fun _ _ => rfl) (by decide)).2.2
      "1146".data " Table x missing".data "1146".data 1146 rfl rfl rfl

/-- C6: when the response status is at least 400, `execute` raises and the
cursor state is exactly what it was before the call — the reset of
description, buffer and rowcount only happens after a successful round
trip. -/
theorem execute_failure_preserves_state (cur : Cursor) (conn : Connection)
    (s : Session) (q : String) (params : Option Args) (ext : Externals)
    (net : Net) (status : Nat) (text : String) (j : Option Payload)
    (hc : cur.connection = some conn) (hs : conn.sess = some s)
    (hnet : ∀ p d, net p d = ⟨status, text, j⟩) (hst : 400 ≤ status) :
    (Cursor.execute cur q params ext net).cur = cur ∧
    (Cursor.execute cur q params ext net).result =
      .error (httpFailure status text) := by
  constructor <;>
    rw [execute_error_state cur conn s q params ext net status text j hc hs hnet hst]

/-- C6 (witness): a failed `execute` leaves a populated cursor intact. -/
theorem execute_failure_preserves_state_witness :
    (Cursor.execute sizedCursor "SELECT 1" none extId netNoBody).cur = sizedCursor ∧
    (Cursor.execute sizedCursor "SELECT 1" none extId netNoBody).result =
      .error (httpFailure 500 "") :=
  execute_failure_preserves_state sizedCursor connect ⟨none⟩ "SELECT 1" none
    extId netNoBody 500 "" none rfl rfl (fun _ _ => rfl) (by decide)

/-- C7: after a successful `execute`, a query statement leaves
`rowcount` equal to the number of server rows, the converted buffer the
same length, and one 9-field descriptor per returned column (name,
resolved type name, nullable defaulting to false, remaining fields
null or zero); any other statement leaves `rowcount` equal to the
server-reported affected-row count, with no description and an empty
buffer. -/
theorem execute_success_populates_state (cur : Cursor) (conn : Connection)
    (s : Session) (q : String) (params : Option Args) (ext : Externals)
    (net : Net) (status : Nat) (text : String) (out : Payload)
    (hc : cur.connection = some conn) (hs : conn.sess = some s)
    (hnet : ∀ p d, net p d = ⟨status, text, some out⟩) (hst : status < 400) :
    (∀ first restRS rws, isQuerySql q = true →
      out.results = some (first :: restRS) → first.rows = some rws →
      (Cursor.execute cur q params ext net).result = .ok () ∧
      (Cursor.execute cur q params ext net).cur.rowcount = (rws.length : Int) ∧
      (Cursor.execute cur q params ext net).cur.rows.length = rws.length ∧
      (Cursor.execute cur q params ext net).cur.description
        = some ((first.columns.getD []).map (builtDescriptor ext)) ∧
      ((Cursor.execute cur q params ext net).cur.description.getD []).length
        = (first.columns.getD []).length) ∧
    (∀ n, isQuerySql q = false → out.rowsAffected = some n →
      (Cursor.execute cur q params ext net).result = .ok () ∧
      (Cursor.execute cur q params ext net).cur.rowcount = n ∧
      (Cursor.execute cur q params ext net).cur.description = none ∧
      (Cursor.execute cur q params ext net).cur.rows = []) := by
  constructor
  · intro first restRS rws hq hres hrows
    rw [execute_query_success cur conn s q params ext net status text out
      first restRS rws hc hs hnet hst hq hres hrows]
    refine ⟨rfl, ?_, ?_, rfl, ?_⟩ <;> simp [convertedRows]
  · intro n hq haff
    rw [execute_exec_success cur conn s q params ext net status text out n
      hc hs hnet hst hq haff]
    exact ⟨rfl, rfl, rfl, rfl⟩

/-- A query response with one column and two rows. -/
def queryPayload : Payload :=
  { results := some
      [{ columns := some [{ name := "a", dataType := 4, nullable := some true }]
         rows := some [[.num 1], [.num 2]] }]
    rowsAffected := none }

/-- A transport answering every POST with `queryPayload`. -/
def netQueryOk : Net := fun _ _ => { status := 200, text := "", json := some queryPayload }

/-- An exec response reporting five affected rows. -/
def execPayload : Payload := { results := none, rowsAffected := some 5 }

/-- A transport answering every POST with `execPayload`. -/
def netExecOk : Net := fun _ _ => { status := 200, text := "", json := some execPayload }

/-- C7 (witness): both branches at concrete responses. -/
theorem execute_success_populates_state_witness :
    (Cursor.execute (Connection.cursor connect) "SELECT a FROM t"
        none extId netQueryOk).result = .ok () ∧
    (Cursor.execute (Connection.cursor connect) "SELECT a FROM t"
        none extId netQueryOk).cur.rowcount = (2 : Int) ∧
    (Cursor.execute (Connection.cursor connect) "INSERT INTO t VALUES (1)"
        none extId netExecOk).cur.rowcount = (5 : Int) := by
  have hquery := (execute_success_populates_state (Connection.cursor connect)
      connect ⟨none⟩ "SELECT a FROM t" none extId netQueryOk 200 "" queryPayload
      rfl rfl (fun _ _ => rfl) (by decide)).1
      { columns := some [{ name := "a", dataType := 4, nullable := some true }]
        rows := some [[.num 1], [.num 2]] } [] [[.num 1], [.num 2]] rfl rfl rfl
  have hexec := (execute_success_populates_state (Connection.cursor connect)
      connect ⟨none⟩ "INSERT INTO t VALUES (1)" none extId netExecOk 200 ""
      execPayload rfl rfl (fun _ _ => rfl) (by decide)).2 5 rfl rfl
  exact ⟨hquery.1, hquery.2.1, hexec.2.1⟩

/-- Exhaustion of a buffer whose rowcount matches its length: the common
state argument behind the C4 claim. -/
theorem fetch_state_exhaustion (st : Cursor)
    (h : st.rowcount = (st.rows.length : Int)) :
    (iterFetch (st.rowcount.toNat + 1) st).1 = st.rows.map some ++ [none] ∧
    (iterFetch (st.rowcount.toNat + 1) st).2.rows = [] ∧
    (Cursor.fetchall st).1 = st.rows ∧
    (Cursor.fetchall (Cursor.fetchall st).2).1 = [] := by
  have htn : st.rowcount.toNat = st.rows.length := by rw [h]; simp
  rw [htn]
  have hif := iterFetch_spec st.rows st rfl
  refine ⟨by rw [hif], by rw [hif], by rw [fetchall_spec], ?_⟩
  rw [fetchall_spec st]
  simp [fetchall_spec]

/-- C4: after a successful query-type `execute`, calling `fetchone`
exactly `rowcount + 1` times returns the buffered rows in order followed
by the sentinel once; `fetchall` returns the whole buffer and a second
`fetchall` returns nothing, the buffer ending up empty; and the buffer is
exactly the converted server rows, in server order. -/
theorem fetch_sequence_exhausts_buffer (cur : Cursor) (conn : Connection)
    (s : Session) (q : String) (params : Option Args) (ext : Externals)
    (net : Net) (status : Nat) (text : String) (out : Payload)
    (first : ResultSet) (restRS : List ResultSet) (rws : List (List JVal))
    (hc : cur.connection = some conn) (hs : conn.sess = some s)
    (hnet : ∀ p d, net p d = ⟨status, text, some out⟩) (hst : status < 400)
    (hq : isQuerySql q = true)
    (hres : out.results = some (first :: restRS)) (hrows : first.rows = some rws) :
    (Cursor.execute cur q params ext net).result = .ok () ∧
    (iterFetch ((Cursor.execute cur q params ext net).cur.rowcount.toNat + 1)
        (Cursor.execute cur q params ext net).cur).1
      = (Cursor.execute cur q params ext net).cur.rows.map some ++ [none] ∧
    (iterFetch ((Cursor.execute cur q params ext net).cur.rowcount.toNat + 1)
        (Cursor.execute cur q params ext net).cur).2.rows = [] ∧
    (Cursor.fetchall (Cursor.execute cur q params ext net).cur).1
      = (Cursor.execute cur q params ext net).cur.rows ∧
    (Cursor.fetchall (Cursor.fetchall (Cursor.execute cur q params ext net).cur).2).1
      = [] ∧
    (Cursor.execute cur q params ext net).cur.rows
      = convertedRows ext (first.columns.getD []) rws := by
  have he := execute_query_success cur conn s q params ext net status text out
    first restRS rws hc hs hnet hst hq hres hrows
  have hinv : (Cursor.execute cur q params ext net).cur.rowcount
      = ((Cursor.execute cur q params ext net).cur.rows.length : Int) := by
    rw [he]
  obtain ⟨a, b, c, d⟩ := fetch_state_exhaustion _ hinv
  exact ⟨by rw [he], a, b, c, d, by rw [he]⟩

/-- C4 (witness): the exhaustion sequence after a concrete query. -/
theorem fetch_sequence_exhausts_buffer_witness :
    (Cursor.execute (Connection.cursor connect) "SELECT a FROM t"
        none extId netQueryOk).result = .ok () ∧
    (iterFetch ((Cursor.execute (Connection.cursor connect) "SELECT a FROM t"
          none extId netQueryOk).cur.rowcount.toNat + 1)
        (Cursor.execute (Connection.cursor connect) "SELECT a FROM t"
          none extId netQueryOk).cur).1
      = (Cursor.execute (Connection.cursor connect) "SELECT a FROM t"
          none extId netQueryOk).cur.rows.map some ++ [none] ∧
    (Cursor.fetchall (Cursor.execute (Connection.cursor connect) "SELECT a FROM t"
        none extId netQueryOk).cur).1
      = (Cursor.execute (Connection.cursor connect) "SELECT a FROM t"
          none extId netQueryOk).cur.rows := by
  have h := fetch_sequence_exhausts_buffer (Connection.cursor connect) connect
    ⟨none⟩ "SELECT a FROM t" none extId netQueryOk 200 "" queryPayload
    { columns := some [{ name := "a", dataType := 4, nullable := some true }]
      rows := some [[.num 1], [.num 2]] } [] [[.num 1], [.num 2]]
    rfl rfl (fun _ _ => rfl) (by decide) rfl rfl rfl
  exact ⟨h.1, h.2.1, h.2.2.2.1⟩

/-- C5: `execute` classifies a statement as query-type exactly when, after
stripping leading whitespace, it begins with `select` or `show`
case-insensitively followed by whitespace; query-type statements are
POSTed to `query/tuples` and all others to `exec`. -/
theorem execute_classification_and_routing (q : String) :
    (isQuerySql q = true ↔ SpecQueryType q) ∧
    (∀ (cur : Cursor) (conn : Connection) (s : Session) (params : Option Args)
        (ext : Externals) (net : Net),
      cur.connection = some conn → conn.sess = some s →
      (Cursor.execute cur q params ext net).requests.map Prod.fst =
        [if isQuerySql q then "query/tuples" else "exec"]) := by
  refine ⟨isQuerySql_iff q, ?_⟩
  intro cur conn s params ext net hc hs
  rw [execute_requests cur conn s q params ext net hc hs]
  simp [builtPath]

/-- C5 (witness): classification and routing at concrete statements. -/
theorem execute_classification_and_routing_witness :
    SpecQueryType "  SELECT 1" ∧
    (Cursor.execute (Connection.cursor connect) "  SELECT 1"
        none extId netEmpty).requests.map Prod.fst = ["query/tuples"] ∧
    (Cursor.execute (Connection.cursor connect) "CREATE TABLE t (x INT)"
        none extId netEmpty).requests.map Prod.fst = ["exec"] := by
  refine ⟨(execute_classification_and_routing "  SELECT 1").1.mp rfl, ?_, ?_⟩
  · exact ((execute_classification_and_routing "  SELECT 1").2
      (Connection.cursor connect) connect ⟨none⟩ none extId netEmpty rfl rfl).trans rfl
  · exact ((execute_classification_and_routing "CREATE TABLE t (x INT)").2
      (Connection.cursor connect) connect ⟨none⟩ none extId netEmpty rfl rfl).trans rfl

/-- A connection carrying Basic-auth credentials. -/
def credConnection : Connection :=
  connect none none (some "u") (some "p") none "http" "v1"

/-- C8 (counterexample): on a connection constructed with credentials, the
GET issued by `is_connected` carries the session's Basic-auth credentials
— it is not the unauthenticated request the claim describes (the source
sends it through `self._sess`, whose auth applies to every request). -/
theorem is_connected_get_uses_session_auth :
    (Connection.is_connected credConnection getNetPong).2 =
      [{ url := "http://localhost:3306/ping", auth := some ("u", "p") }] := rfl

/-- C8 (amended): on an open connection, `is_connected` issues exactly one
GET, through the session and so carrying its configured auth, to the base
URL cut back to `scheme://host:port` plus `/ping`; it returns true exactly
when the status is at most 400 and the body is `"pong"`; `ping` raises the
code-2006 connectivity error exactly when `is_connected` is false, and the
`reconnect` flag has no effect. -/
theorem is_connected_ping_behavior (c : Connection) (s : Session) (net : GetNet)
    (hs : c.sess = some s) :
    ((Connection.is_connected c net).2 =
      [{ url := pingUrl c.url, auth := s.auth }]) ∧
    ((Connection.is_connected c net).1 = true ↔
      ((net { url := pingUrl c.url, auth := s.auth }).status ≤ 400 ∧
        (net { url := pingUrl c.url, auth := s.auth }).text = "pong")) ∧
    (∀ r : Bool,
      (Connection.ping c r net).1 =
          .error (.interfaceError 2006 "Could not connect to SingleStore database") ↔
        (Connection.is_connected c net).1 = false) ∧
    (Connection.ping c true net = Connection.ping c false net) ∧
    (∀ (scheme hp ver : String),
      ('/' : Char) ∉ scheme.data → ('/' : Char) ∉ hp.data →
      pingUrl (scheme ++ "://" ++ hp ++ "/api/" ++ ver ++ "/") =
        scheme ++ "://" ++ hp ++ "/ping") := by
  have hconn : Connection.is_connected c net =
      (if (net { url := pingUrl c.url, auth := s.auth }).status ≤ 400 &&
          (net { url := pingUrl c.url, auth := s.auth }).text == "pong"
        then (true, [{ url := pingUrl c.url, auth := s.auth }])
        else (false, [{ url := pingUrl c.url, auth := s.auth }])) := by
    simp [Connection.is_connected, hs]
  refine ⟨?_, ?_, ?_, rfl, fun scheme hp ver h1 h2 =>
    pingUrl_strips_api_path scheme hp ver h1 h2⟩
  · rw [hconn]; split <;> rfl
  · rw [hconn]
    split <;> rename_i hcond <;>
      simp_all [Bool.and_eq_true, decide_eq_true_eq, beq_iff_eq]
  · intro r
    have hping : Connection.ping c r net =
        (if (Connection.is_connected c net).1
          then (.ok (), (Connection.is_connected c net).2)
          else (.error (.interfaceError 2006
              "Could not connect to SingleStore database"),
            (Connection.is_connected c net).2)) := rfl
    rw [hping]
    cases hb : (Connection.is_connected c net).1 <;> simp [hb]

/-- C8 (witness): the amended statement at a concrete open connection and
the ping URL computation at concrete components. -/
theorem is_connected_ping_behavior_witness :
    (Connection.is_connected connect getNetPong).2 =
      [{ url := "http://localhost:3306/ping", auth := none }] ∧
    pingUrl ("http" ++ "://" ++ "localhost:3306" ++ "/api/" ++ "v1" ++ "/") =
      "http" ++ "://" ++ "localhost:3306" ++ "/ping" := by
  have h := is_connected_ping_behavior connect ⟨none⟩ getNetPong rfl
  exact ⟨h.1.trans (by rfl),
    h.2.2.2.2 "http" "localhost:3306" "v1" (by decide) (by decide)⟩

end SinglestoreHttp
